import Mathlib

/-
Verification development for the ai-claims-orchestrator backend.

The data model is embedded from src/backend/models/schemas.py and the HTTP
handler bodies from src/backend/main.py. Python `datetime` values are modelled
as abstract clock ticks (`Nat`); `float` fields carry no arithmetic in the
handlers, only comparisons, so they are modelled as `Rat`. The orchestrator
(`ClaimsOrchestrator.process_claim`, imported by main.py from a module outside
the embedded sources) is treated as an external parameter: a function from the
submission and claim id to either a `ClaimAnalysis` or an exception message.
-/

namespace ClaimsOrchestration

/-- `ClaimStatus` enumeration (schemas.py lines 7-16). -/
inductive ClaimStatus where
  | submitted
  | validating
  | fraud_check
  | policy_check
  | document_analysis
  | decision_pending
  | approved
  | rejected
  | needs_info
deriving DecidableEq, Repr

/-- The string value of each `ClaimStatus` member (the `str` mixin values). -/
def ClaimStatus.value : ClaimStatus → String
  | .submitted => "submitted"
  | .validating => "validating"
  | .fraud_check => "fraud_check"
  | .policy_check => "policy_check"
  | .document_analysis => "document_analysis"
  | .decision_pending => "decision_pending"
  | .approved => "approved"
  | .rejected => "rejected"
  | .needs_info => "needs_info"

/-- `ClaimType` enumeration (schemas.py lines 19-23). -/
inductive ClaimType where
  | health
  | auto
  | home
  | life
deriving DecidableEq, Repr

/-- `ClaimSubmission` (schemas.py lines 26-34). `claim_amount` is a Python
float used only for comparison, modelled as `Rat`. -/
structure ClaimSubmission where
  policy_number : String
  claim_type : ClaimType
  claim_amount : Rat
  incident_date : String
  description : String
  claimant_name : String
  claimant_email : String
  documents : List String
deriving DecidableEq, Repr

/-- Pydantic construction of `ClaimSubmission`: `claim_amount` has `gt=0` and
`description` has `min_length=20` (schemas.py lines 29, 31); a value violating
either constraint is rejected at construction. -/
def mkClaimSubmission (policy_number : String) (claim_type : ClaimType)
    (claim_amount : Rat) (incident_date : String) (description : String)
    (claimant_name : String) (claimant_email : String)
    (documents : List String) : Option ClaimSubmission :=
  if 0 < claim_amount ∧ 20 ≤ description.length then
    some { policy_number := policy_number, claim_type := claim_type,
           claim_amount := claim_amount, incident_date := incident_date,
           description := description, claimant_name := claimant_name,
           claimant_email := claimant_email, documents := documents }
  else
    none

/-- `AgentResult` (schemas.py lines 37-43). The open `Dict[str, Any]` metadata
is modelled as a list of string key/value pairs (the handlers never inspect
it). -/
structure AgentResult where
  agent_name : String
  status : String
  confidence : Rat
  findings : String
  recommendations : List String
  metadata : List (String × String)
deriving DecidableEq, Repr

/-- Pydantic construction of `AgentResult`: `confidence` has `ge=0.0, le=1.0`
(schemas.py line 40); a value outside the bounds is rejected at
construction. -/
def mkAgentResult (agent_name : String) (status : String) (confidence : Rat)
    (findings : String) (recommendations : List String)
    (metadata : List (String × String)) : Option AgentResult :=
  if 0 ≤ confidence ∧ confidence ≤ 1 then
    some { agent_name := agent_name, status := status, confidence := confidence,
           findings := findings, recommendations := recommendations,
           metadata := metadata }
  else
    none

/-- `ClaimAnalysis` (schemas.py lines 46-54). -/
structure ClaimAnalysis where
  claim_id : String
  validation_result : Option AgentResult
  fraud_result : Option AgentResult
  policy_result : Option AgentResult
  document_result : Option AgentResult
  final_decision : Option AgentResult
  overall_status : ClaimStatus
  processing_time : Option Rat
deriving DecidableEq, Repr

/-- `Claim` (schemas.py lines 57-63). Timestamps are abstract clock ticks. -/
structure Claim where
  claim_id : String
  submission : ClaimSubmission
  status : ClaimStatus
  created_at : Nat
  updated_at : Nat
  analysis : Option ClaimAnalysis
deriving DecidableEq, Repr

/-- `ClaimStatusResponse` (schemas.py lines 73-79). -/
structure ClaimStatusResponse where
  claim_id : String
  status : ClaimStatus
  current_step : String
  progress_percentage : Nat
  analysis : Option ClaimAnalysis
  updated_at : Nat
deriving DecidableEq, Repr

/-- `AnalysisTriggerResponse` (schemas.py lines 82-85). -/
structure AnalysisTriggerResponse where
  claim_id : String
  message : String
  status : String
deriving DecidableEq, Repr

/-- FastAPI `HTTPException`, carrying a status code and a detail message. -/
structure HTTPError where
  code : Nat
  detail : String
deriving DecidableEq, Repr

/-- The in-memory claim store `claims_db : Dict[str, Claim]` (main.py line 37),
modelled as an association list with unique keys maintained by construction. -/
abbrev ClaimsDb := List (String × Claim)

/-- Dictionary lookup `claims_db[claim_id]` / `claim_id in claims_db`. -/
def dbGet : ClaimsDb → String → Option Claim
  | [], _ => none
  | (k, v) :: rest, cid => if k = cid then some v else dbGet rest cid

/-- In-place mutation of the claim object stored under a key (Python mutates
the `Claim` object held in the dict; the binding itself is unchanged). -/
def dbUpdate : ClaimsDb → String → (Claim → Claim) → ClaimsDb
  | [], _, _ => []
  | (k, v) :: rest, cid, f =>
    if k = cid then (k, f v) :: rest else (k, v) :: dbUpdate rest cid f

/-- The `status_progress` dict of `get_claim_status` (main.py lines 113-123). -/
def status_progress : List (ClaimStatus × Nat) :=
  [(.submitted, 10), (.validating, 20), (.fraud_check, 40), (.policy_check, 60),
   (.document_analysis, 80), (.decision_pending, 90), (.approved, 100),
   (.rejected, 100), (.needs_info, 50)]

/-- The `current_step_map` dict of `get_claim_status` (main.py lines 125-135). -/
def current_step_map : List (ClaimStatus × String) :=
  [(.submitted, "Claim received and queued"),
   (.validating, "Validating claim information"),
   (.fraud_check, "Analyzing for fraud indicators"),
   (.policy_check, "Verifying policy coverage"),
   (.document_analysis, "Analyzing supporting documents"),
   (.decision_pending, "Making final decision"),
   (.approved, "Claim approved"),
   (.rejected, "Claim rejected"),
   (.needs_info, "Additional information required")]

/-- The 404 error raised when a claim id is absent (main.py lines 108, 179,
222). -/
def notFoundError (claim_id : String) : HTTPError :=
  { code := 404, detail := "Claim " ++ claim_id ++ " not found" }

/-- `GET /api/claims/{claim_id}` handler `get_claim_status` (main.py lines
100-144). Read-only: it never writes to `claims_db`. -/
def get_claim_status (db : ClaimsDb) (claim_id : String) :
    Except HTTPError ClaimStatusResponse :=
  match dbGet db claim_id with
  | none => .error (notFoundError claim_id)
  | some claim =>
    .ok { claim_id := claim_id
          status := claim.status
          current_step := ((current_step_map.lookup claim.status).getD "Processing")
          progress_percentage := ((status_progress.lookup claim.status).getD 0)
          analysis := claim.analysis
          updated_at := claim.updated_at }

/-- One element of the `list_claims` comprehension (main.py lines 155-166). -/
def listEntry (claim : Claim) : ClaimStatusResponse :=
  { claim_id := claim.claim_id
    status := claim.status
    current_step :=
      if ¬(claim.status = .approved ∨ claim.status = .rejected) then "Processing"
      else "Complete"
    progress_percentage :=
      if claim.status = .approved ∨ claim.status = .rejected then 100 else 50
    analysis := claim.analysis
    updated_at := claim.updated_at }

/-- `GET /api/claims` handler `list_claims` (main.py lines 147-168). -/
def list_claims (db : ClaimsDb) : List ClaimStatusResponse :=
  db.map (fun p => listEntry p.2)

/-- The "skipped" response of `analyze_claim` (main.py lines 184-188). -/
def skipResponse (claim_id : String) : AnalysisTriggerResponse :=
  { claim_id := claim_id
    message := "Claim analysis already in progress or completed"
    status := "skipped" }

/-- The "completed" response of `analyze_claim` (main.py lines 203-207). -/
def completedResponse (claim_id : String) (analysis : ClaimAnalysis) :
    AnalysisTriggerResponse :=
  { claim_id := claim_id
    message := "Claim analysis completed. Status: " ++ analysis.overall_status.value
    status := "completed" }

/-- The 500 error raised when the orchestrator call raises (main.py line
211). -/
def analysisFailedError (e : String) : HTTPError :=
  { code := 500, detail := "Analysis failed: " ++ e }

/-- `POST /api/claims/{claim_id}/analyze` handler `analyze_claim` (main.py
lines 171-211). `orch` is the external `orchestrator.process_claim`; `t1` and
`t2` are the clock readings of the two `datetime.now()` call sites (line 193,
and line 201 or 210). Returns the response (or raised error) together with the
resulting store. -/
def analyze_claim (db : ClaimsDb) (claim_id : String)
    (orch : ClaimSubmission → String → Except String ClaimAnalysis)
    (t1 t2 : Nat) : Except HTTPError AnalysisTriggerResponse × ClaimsDb :=
  match dbGet db claim_id with
  | none => (.error (notFoundError claim_id), db)
  | some claim =>
    if ¬(claim.status = .submitted ∨ claim.status = .needs_info) then
      (.ok (skipResponse claim_id), db)
    else
      let claim1 : Claim := { claim with status := .validating, updated_at := t1 }
      match orch claim.submission claim_id with
      | .ok analysis =>
        let claim2 : Claim :=
          { claim1 with analysis := some analysis,
                        status := analysis.overall_status, updated_at := t2 }
        (.ok (completedResponse claim_id analysis),
         dbUpdate db claim_id (fun _ => claim2))
      | .error e =>
        let claim2 : Claim := { claim1 with status := .submitted, updated_at := t2 }
        (.error (analysisFailedError e), dbUpdate db claim_id (fun _ => claim2))

/-- Response shapes of `get_analysis_results` (main.py lines 226-240): the
informational dict returned when no analysis is stored, and the full dump. -/
inductive ResultsResponse where
  | pending (claim_id : String) (status : ClaimStatus) (message : String)
  | full (claim_id : String) (status : ClaimStatus)
      (submission : ClaimSubmission) (analysis : ClaimAnalysis)
      (created_at updated_at : Nat)
deriving DecidableEq, Repr

/-- `GET /api/claims/{claim_id}/results` handler `get_analysis_results`
(main.py lines 214-240). Read-only: it never writes to `claims_db`. -/
def get_analysis_results (db : ClaimsDb) (claim_id : String) :
    Except HTTPError ResultsResponse :=
  match dbGet db claim_id with
  | none => .error (notFoundError claim_id)
  | some claim =>
    match claim.analysis with
    | none =>
      .ok (.pending claim_id claim.status
        "Analysis not yet completed. Please trigger analysis first.")
    | some analysis =>
      .ok (.full claim_id claim.status claim.submission analysis
        claim.created_at claim.updated_at)

/-- The §4.2 status transition table, written from the spec's words:
`specEdgeB a b = true` exactly when §4.2 defines an edge from status `a` to
status `b` (used to compare the code's status writes against the spec). -/
def specEdgeB : ClaimStatus → ClaimStatus → Bool
  | .submitted, .validating => true
  | .needs_info, .validating => true
  | .validating, .fraud_check => true
  | .validating, .needs_info => true
  | .validating, .rejected => true
  | .fraud_check, .policy_check => true
  | .fraud_check, .rejected => true
  | .policy_check, .document_analysis => true
  | .policy_check, .rejected => true
  | .document_analysis, .decision_pending => true
  | .decision_pending, .approved => true
  | .decision_pending, .rejected => true
  | _, _ => false

/-
Cooperative-concurrency model of `analyze_claim`. FastAPI runs the async
handlers on a single event loop; the only suspension point inside
`analyze_claim` is the `await orchestrator.process_claim(...)` at main.py line
196, so each request executes as two atomic segments: segment 1 (lines
178-193: the 404 check, the status guard, and the write of `validating`) and
segment 2 (lines 198-211: recording the analysis, or the exception handler).
A system state is the store plus the phase of every outstanding request.
-/

/-- Decidable equality of `Except` outcomes. -/
instance instDecEqExceptOutcome {ε α : Type} [DecidableEq ε] [DecidableEq α] :
    DecidableEq (Except ε α) := fun a b =>
  match a, b with
  | .error e, .error f =>
    if h : e = f then .isTrue (by rw [h])
    else .isFalse (by intro hc; cases hc; exact h rfl)
  | .ok x, .ok y =>
    if h : x = y then .isTrue (by rw [h])
    else .isFalse (by intro hc; cases hc; exact h rfl)
  | .error _, .ok _ => .isFalse (by intro hc; cases hc)
  | .ok _, .error _ => .isFalse (by intro hc; cases hc)

/-- Phase of one outstanding `analyze_claim` request: not yet scheduled,
suspended at the `await` (segment 1 ran and proceeded), or finished with a
response or raised error. -/
inductive CallPhase where
  | start
  | awaiting
  | done (response : Except HTTPError AnalysisTriggerResponse)
deriving DecidableEq, Repr

/-- Whether a request phase is suspended at the orchestrator `await`. -/
def CallPhase.isAwaiting : CallPhase → Bool
  | .awaiting => true
  | _ => false

/-- One outstanding `analyze_claim` request: the claim id it targets and its
phase. -/
structure Call where
  claim_id : String
  phase : CallPhase
deriving DecidableEq, Repr

/-- State of the event loop: the store and the outstanding requests. -/
structure Sys where
  db : ClaimsDb
  calls : List Call
deriving DecidableEq, Repr

/-- Scheduler label: which segment of which request runs, with the clock
reading and (for segment 2) the orchestrator's outcome. -/
inductive Label where
  | fire1 (claim_id : String) (t : Nat)
  | fire2ok (claim_id : String) (analysis : ClaimAnalysis) (t : Nat)
  | fire2err (claim_id : String) (e : String) (t : Nat)
deriving DecidableEq, Repr

/-- Interleaving semantics of concurrent `analyze_claim` requests: each step
runs one atomic segment of one outstanding request, exactly as the handler
body executes it (main.py lines 178-211). -/
inductive SysStep : Sys → Label → Sys → Prop where
  | step1_notfound (db : ClaimsDb) (pre post : List Call) (cid : String) (t : Nat) :
      dbGet db cid = none →
      SysStep ⟨db, pre ++ { claim_id := cid, phase := .start } :: post⟩
        (.fire1 cid t)
        ⟨db, pre ++ { claim_id := cid,
                      phase := .done (.error (notFoundError cid)) } :: post⟩
  | step1_skip (db : ClaimsDb) (pre post : List Call) (cid : String) (t : Nat)
      (cl : Claim) :
      dbGet db cid = some cl →
      ¬(cl.status = .submitted ∨ cl.status = .needs_info) →
      SysStep ⟨db, pre ++ { claim_id := cid, phase := .start } :: post⟩
        (.fire1 cid t)
        ⟨db, pre ++ { claim_id := cid,
                      phase := .done (.ok (skipResponse cid)) } :: post⟩
  | step1_proceed (db : ClaimsDb) (pre post : List Call) (cid : String) (t : Nat)
      (cl : Claim) :
      dbGet db cid = some cl →
      (cl.status = .submitted ∨ cl.status = .needs_info) →
      SysStep ⟨db, pre ++ { claim_id := cid, phase := .start } :: post⟩
        (.fire1 cid t)
        ⟨dbUpdate db cid (fun c => { c with status := .validating, updated_at := t }),
         pre ++ { claim_id := cid, phase := .awaiting } :: post⟩
  | step2_ok (db : ClaimsDb) (pre post : List Call) (cid : String)
      (a : ClaimAnalysis) (t : Nat) :
      SysStep ⟨db, pre ++ { claim_id := cid, phase := .awaiting } :: post⟩
        (.fire2ok cid a t)
        ⟨dbUpdate db cid (fun c => { c with analysis := some a,
                                            status := a.overall_status,
                                            updated_at := t }),
         pre ++ { claim_id := cid,
                  phase := .done (.ok (completedResponse cid a)) } :: post⟩
  | step2_err (db : ClaimsDb) (pre post : List Call) (cid : String) (e : String)
      (t : Nat) :
      SysStep ⟨db, pre ++ { claim_id := cid, phase := .awaiting } :: post⟩
        (.fire2err cid e t)
        ⟨dbUpdate db cid (fun c => { c with status := .submitted, updated_at := t }),
         pre ++ { claim_id := cid,
                  phase := .done (.error (analysisFailedError e)) } :: post⟩

/-- Claim ids of the requests currently suspended at the orchestrator `await`
(the claims with an active pipeline run). -/
def awaitingIds (calls : List Call) : List String :=
  (calls.filter (fun k => k.phase.isAwaiting)).map Call.claim_id

/-- System invariant: at most one active run per claim id, and every claim
with an active run is stored with status `validating`. -/
def Inv (s : Sys) : Prop :=
  (awaitingIds s.calls).Nodup ∧
  ∀ c ∈ awaitingIds s.calls,
    ∃ cl, dbGet s.db c = some cl ∧ cl.status = ClaimStatus.validating

/-- A sample well-formed submission used to instantiate theorems. -/
def sampleSubmission : ClaimSubmission :=
  { policy_number := "POL-2024-001"
    claim_type := .auto
    claim_amount := 50000
    incident_date := "2025-01-15"
    description := "Rear-ended at a stoplight on Main Street"
    claimant_name := "Alex Doe"
    claimant_email := "alex@example.com"
    documents := [] }

/-- A sample stored claim with a given status. -/
def sampleClaim (st : ClaimStatus) : Claim :=
  { claim_id := "CLM-1"
    submission := sampleSubmission
    status := st
    created_at := 0
    updated_at := 1
    analysis := none }

/-- A sample completed analysis with overall status `approved`. -/
def sampleAnalysis : ClaimAnalysis :=
  { claim_id := "CLM-1"
    validation_result := none
    fraud_result := none
    policy_result := none
    document_result := none
    final_decision := none
    overall_status := .approved
    processing_time := some 2 }

/-- A deterministic orchestrator stub that always succeeds with
`sampleAnalysis`. -/
def okOrch : ClaimSubmission → String → Except String ClaimAnalysis :=
  fun _ _ => .ok sampleAnalysis

/-- A deterministic orchestrator stub that always raises. -/
def failOrch : ClaimSubmission → String → Except String ClaimAnalysis :=
  fun _ _ => .error "boom"

/-- First analyze run of the re-run scenario: a freshly submitted claim,
processed by the deterministic `okOrch`. -/
def rerunFirst : Except HTTPError AnalysisTriggerResponse × ClaimsDb :=
  analyze_claim [("CLM-1", sampleClaim .submitted)] "CLM-1" okOrch 2 3

/-- Second analyze run of the re-run scenario, on the store the first run
left behind. -/
def rerunSecond : Except HTTPError AnalysisTriggerResponse × ClaimsDb :=
  analyze_claim rerunFirst.2 "CLM-1" okOrch 4 5

/- Helper lemmas about the store and the interleaving model. -/

@[simp]
theorem isAwaiting_start : CallPhase.isAwaiting .start = false := rfl

@[simp]
theorem isAwaiting_awaiting : CallPhase.isAwaiting .awaiting = true := rfl

@[simp]
theorem isAwaiting_done (r : Except HTTPError AnalysisTriggerResponse) :
    CallPhase.isAwaiting (.done r) = false := rfl

theorem dbGet_dbUpdate_self (db : ClaimsDb) (cid : String) (f : Claim → Claim) :
    dbGet (dbUpdate db cid f) cid = (dbGet db cid).map f := by
  induction db with
  | nil => rfl
  | cons p rest ih =>
    obtain ⟨k, v⟩ := p
    by_cases h : k = cid
    · simp [dbUpdate, dbGet, h]
    · simp [dbUpdate, dbGet, h, ih]

theorem dbGet_dbUpdate_ne (db : ClaimsDb) (cid c : String) (f : Claim → Claim)
    (h : c ≠ cid) : dbGet (dbUpdate db cid f) c = dbGet db c := by
  induction db with
  | nil => rfl
  | cons p rest ih =>
    obtain ⟨k, v⟩ := p
    by_cases hk : k = cid
    · subst hk
      simp [dbUpdate, dbGet, Ne.symm h]
    · simp [dbUpdate, dbGet, hk, ih]

theorem mem_of_dbGet (db : ClaimsDb) (cid : String) (cl : Claim)
    (h : dbGet db cid = some cl) : (cid, cl) ∈ db := by
  induction db with
  | nil => cases h
  | cons p rest ih =>
    obtain ⟨k, v⟩ := p
    by_cases hk : k = cid
    · subst hk
      simp [dbGet] at h
      subst h
      exact List.mem_cons_self _ _
    · simp [dbGet, hk] at h
      exact List.mem_cons_of_mem _ (ih h)

theorem awaitingIds_append (l1 l2 : List Call) :
    awaitingIds (l1 ++ l2) = awaitingIds l1 ++ awaitingIds l2 := by
  simp [awaitingIds, List.filter_append]

theorem awaitingIds_cons (k : Call) (l : List Call) :
    awaitingIds (k :: l) =
      if k.phase.isAwaiting then k.claim_id :: awaitingIds l else awaitingIds l := by
  by_cases h : k.phase.isAwaiting <;> simp [awaitingIds, List.filter_cons, h]

theorem analyze_claim_skip (db : ClaimsDb) (claim_id : String)
    (orch : ClaimSubmission → String → Except String ClaimAnalysis)
    (t1 t2 : Nat) (cl : Claim) (h : dbGet db claim_id = some cl)
    (h1 : cl.status ≠ .submitted) (h2 : cl.status ≠ .needs_info) :
    analyze_claim db claim_id orch t1 t2 = (.ok (skipResponse claim_id), db) := by
  simp [analyze_claim, h, h1, h2]

theorem analyze_claim_ok (db : ClaimsDb) (claim_id : String)
    (orch : ClaimSubmission → String → Except String ClaimAnalysis)
    (t1 t2 : Nat) (cl : Claim) (a : ClaimAnalysis)
    (h : dbGet db claim_id = some cl)
    (hs : cl.status = .submitted ∨ cl.status = .needs_info)
    (horch : orch cl.submission claim_id = .ok a) :
    analyze_claim db claim_id orch t1 t2 =
      (.ok (completedResponse claim_id a),
       dbUpdate db claim_id (fun _ =>
         { cl with analysis := some a, status := a.overall_status,
                   updated_at := t2 })) := by
  rcases hs with hs | hs <;> simp [analyze_claim, h, hs, horch]

theorem analyze_claim_err (db : ClaimsDb) (claim_id : String)
    (orch : ClaimSubmission → String → Except String ClaimAnalysis)
    (t1 t2 : Nat) (cl : Claim) (e : String)
    (h : dbGet db claim_id = some cl)
    (hs : cl.status = .submitted ∨ cl.status = .needs_info)
    (horch : orch cl.submission claim_id = .error e) :
    analyze_claim db claim_id orch t1 t2 =
      (.error (analysisFailedError e),
       dbUpdate db claim_id (fun _ =>
         { cl with status := .submitted, updated_at := t2 })) := by
  rcases hs with hs | hs <;> simp [analyze_claim, h, hs, horch]

/-- C1: an analyze request on a stored claim whose status is neither
`submitted` nor `needs_info` (in particular the terminal `approved` and
`rejected`, and any in-flight status such as `validating`) returns the
"skipped" response immediately and leaves the store — status, analysis and
timestamps — exactly as it was. -/
theorem analyze_nonpending_skipped (db : ClaimsDb) (claim_id : String)
    (orch : ClaimSubmission → String → Except String ClaimAnalysis)
    (t1 t2 : Nat) (cl : Claim) (h : dbGet db claim_id = some cl)
    (h1 : cl.status ≠ .submitted) (h2 : cl.status ≠ .needs_info) :
    analyze_claim db claim_id orch t1 t2 = (.ok (skipResponse claim_id), db) ∧
    (skipResponse claim_id).status = "skipped" :=
  ⟨analyze_claim_skip db claim_id orch t1 t2 cl h h1 h2, rfl⟩

/-- Witness for C1 at a concrete approved claim. -/
theorem analyze_nonpending_skipped_witness :
    dbGet [("CLM-1", sampleClaim .approved)] "CLM-1" = some (sampleClaim .approved) ∧
    (sampleClaim .approved).status ≠ .submitted ∧
    (sampleClaim .approved).status ≠ .needs_info ∧
    (analyze_claim [("CLM-1", sampleClaim .approved)] "CLM-1" okOrch 4 5 =
      (.ok (skipResponse "CLM-1"), [("CLM-1", sampleClaim .approved)]) ∧
     (skipResponse "CLM-1").status = "skipped") :=
  ⟨rfl, by decide, by decide,
   analyze_nonpending_skipped _ _ okOrch 4 5 _ rfl (by decide) (by decide)⟩

/-- C2 counterexample: a claim stored with status `needs_info` whose analyze
run raises an unhandled error ends up stored with status `submitted` — not
its last-persisted status — while the caller receives the 500 error. -/
theorem analyze_error_discards_needs_info :
    (sampleClaim .needs_info).status = .needs_info ∧
    (analyze_claim [("CLM-1", sampleClaim .needs_info)] "CLM-1" failOrch 4 5).1 =
      .error (analysisFailedError "boom") ∧
    (dbGet (analyze_claim [("CLM-1", sampleClaim .needs_info)] "CLM-1" failOrch 4 5).2
        "CLM-1").map Claim.status = some .submitted ∧
    ClaimStatus.submitted ≠ ClaimStatus.needs_info :=
  ⟨rfl, rfl, rfl, by decide⟩

/-- C2 amended: when the orchestrator call raises on a claim in `submitted`
or `needs_info`, the caller receives the typed 500 error, but the stored
status is reset to `submitted` — with `updated_at` advanced to the handler's
second clock reading — rather than left at its last-persisted value (a claim
that was `needs_info` is observed as `submitted` afterwards). -/
theorem analyze_error_resets_to_submitted (db : ClaimsDb) (claim_id : String)
    (orch : ClaimSubmission → String → Except String ClaimAnalysis)
    (t1 t2 : Nat) (cl : Claim) (e : String)
    (h : dbGet db claim_id = some cl)
    (hs : cl.status = .submitted ∨ cl.status = .needs_info)
    (horch : orch cl.submission claim_id = .error e) :
    analyze_claim db claim_id orch t1 t2 =
      (.error (analysisFailedError e),
       dbUpdate db claim_id (fun _ =>
         { cl with status := .submitted, updated_at := t2 })) ∧
    (analysisFailedError e).code = 500 :=
  ⟨analyze_claim_err db claim_id orch t1 t2 cl e h hs horch, rfl⟩

/-- Witness for C2 amended at a concrete `needs_info` claim. -/
theorem analyze_error_resets_to_submitted_witness :
    dbGet [("CLM-1", sampleClaim .needs_info)] "CLM-1" = some (sampleClaim .needs_info) ∧
    ((sampleClaim .needs_info).status = .submitted ∨
      (sampleClaim .needs_info).status = .needs_info) ∧
    failOrch (sampleClaim .needs_info).submission "CLM-1" = .error "boom" ∧
    (analyze_claim [("CLM-1", sampleClaim .needs_info)] "CLM-1" failOrch 4 5 =
      (.error (analysisFailedError "boom"),
       dbUpdate [("CLM-1", sampleClaim .needs_info)] "CLM-1"
         (fun _ => { (sampleClaim .needs_info) with
                     status := .submitted, updated_at := 5 })) ∧
     (analysisFailedError "boom").code = 500) :=
  ⟨rfl, Or.inr rfl, rfl,
   analyze_error_resets_to_submitted _ _ failOrch 4 5 _ "boom" rfl (Or.inr rfl) rfl⟩

/-- C4: a successful analyze on a claim in `submitted` or `needs_info` stores
the returned analysis, sets the stored status to the analysis's
`overall_status`, advances `updated_at`, and answers "completed" with a
message naming that overall status. -/
theorem analyze_success_completes (db : ClaimsDb) (claim_id : String)
    (orch : ClaimSubmission → String → Except String ClaimAnalysis)
    (t1 t2 : Nat) (cl : Claim) (a : ClaimAnalysis)
    (h : dbGet db claim_id = some cl)
    (hs : cl.status = .submitted ∨ cl.status = .needs_info)
    (horch : orch cl.submission claim_id = .ok a)
    (ht : cl.updated_at < t2) :
    (analyze_claim db claim_id orch t1 t2).1 = .ok (completedResponse claim_id a) ∧
    (completedResponse claim_id a).status = "completed" ∧
    (completedResponse claim_id a).message =
      "Claim analysis completed. Status: " ++ a.overall_status.value ∧
    ∃ cl', dbGet (analyze_claim db claim_id orch t1 t2).2 claim_id = some cl' ∧
      cl'.analysis = some a ∧ cl'.status = a.overall_status ∧
      cl.updated_at < cl'.updated_at := by
  have hrun := analyze_claim_ok db claim_id orch t1 t2 cl a h hs horch
  have hget : dbGet (analyze_claim db claim_id orch t1 t2).2 claim_id =
      some { cl with analysis := some a, status := a.overall_status,
                     updated_at := t2 } := by
    rw [hrun, dbGet_dbUpdate_self, h]
    rfl
  exact ⟨by rw [hrun], rfl, rfl, _, hget, rfl, rfl, ht⟩

/-- Witness for C4 at a concrete submitted claim with `okOrch`. -/
theorem analyze_success_completes_witness :
    dbGet [("CLM-1", sampleClaim .submitted)] "CLM-1" = some (sampleClaim .submitted) ∧
    ((sampleClaim .submitted).status = .submitted ∨
      (sampleClaim .submitted).status = .needs_info) ∧
    okOrch (sampleClaim .submitted).submission "CLM-1" = .ok sampleAnalysis ∧
    (sampleClaim .submitted).updated_at < 3 ∧
    ((analyze_claim [("CLM-1", sampleClaim .submitted)] "CLM-1" okOrch 2 3).1 =
      .ok (completedResponse "CLM-1" sampleAnalysis) ∧
     (completedResponse "CLM-1" sampleAnalysis).status = "completed" ∧
     (completedResponse "CLM-1" sampleAnalysis).message =
       "Claim analysis completed. Status: " ++ sampleAnalysis.overall_status.value ∧
     ∃ cl', dbGet (analyze_claim [("CLM-1", sampleClaim .submitted)]
          "CLM-1" okOrch 2 3).2 "CLM-1" = some cl' ∧
       cl'.analysis = some sampleAnalysis ∧
       cl'.status = sampleAnalysis.overall_status ∧
       (sampleClaim .submitted).updated_at < cl'.updated_at) :=
  ⟨rfl, Or.inl rfl, rfl, by decide,
   analyze_success_completes _ _ okOrch 2 3 _ sampleAnalysis rfl (Or.inl rfl) rfl
     (by decide)⟩

/-- C5 counterexample: after a completed run ends `approved`, re-running the
pipeline does not overwrite the stored record with a new analysis — the
second call answers "skipped" and leaves the store, including `updated_at`,
untouched. -/
theorem rerun_not_overwritten :
    rerunFirst.1 = .ok (completedResponse "CLM-1" sampleAnalysis) ∧
    (dbGet rerunFirst.2 "CLM-1").map Claim.status = some .approved ∧
    rerunSecond = (.ok (skipResponse "CLM-1"), rerunFirst.2) ∧
    (dbGet rerunSecond.2 "CLM-1").map Claim.updated_at = some 3 ∧
    (skipResponse "CLM-1").status ≠ "completed" :=
  ⟨rfl, rfl, rfl, rfl, by decide⟩

/-- C5 amended: re-running after a successful run whose `overall_status` is
neither `submitted` nor `needs_info` is a skip no-op: the second call answers
"skipped" and leaves the store exactly as the first run left it, so running
the pipeline twice sequentially is idempotent in effect — the final stored
status and analysis are those of the (deterministic) first run. -/
theorem rerun_skip_noop (db : ClaimsDb) (claim_id : String)
    (orch : ClaimSubmission → String → Except String ClaimAnalysis)
    (t1 t2 t3 t4 : Nat) (cl : Claim) (a : ClaimAnalysis)
    (h : dbGet db claim_id = some cl)
    (hs : cl.status = .submitted ∨ cl.status = .needs_info)
    (horch : orch cl.submission claim_id = .ok a)
    (h1 : a.overall_status ≠ .submitted) (h2 : a.overall_status ≠ .needs_info) :
    analyze_claim (analyze_claim db claim_id orch t1 t2).2 claim_id orch t3 t4 =
      (.ok (skipResponse claim_id), (analyze_claim db claim_id orch t1 t2).2) := by
  have hrun := analyze_claim_ok db claim_id orch t1 t2 cl a h hs horch
  have hget : dbGet (analyze_claim db claim_id orch t1 t2).2 claim_id =
      some { cl with analysis := some a, status := a.overall_status,
                     updated_at := t2 } := by
    rw [hrun, dbGet_dbUpdate_self, h]
    rfl
  exact analyze_claim_skip _ _ _ _ _ _ hget h1 h2

/-- Witness for C5 amended on the concrete re-run scenario. -/
theorem rerun_skip_noop_witness :
    dbGet [("CLM-1", sampleClaim .submitted)] "CLM-1" = some (sampleClaim .submitted) ∧
    ((sampleClaim .submitted).status = .submitted ∨
      (sampleClaim .submitted).status = .needs_info) ∧
    okOrch (sampleClaim .submitted).submission "CLM-1" = .ok sampleAnalysis ∧
    sampleAnalysis.overall_status ≠ .submitted ∧
    sampleAnalysis.overall_status ≠ .needs_info ∧
    analyze_claim
        (analyze_claim [("CLM-1", sampleClaim .submitted)] "CLM-1" okOrch 2 3).2
        "CLM-1" okOrch 4 5 =
      (.ok (skipResponse "CLM-1"),
       (analyze_claim [("CLM-1", sampleClaim .submitted)] "CLM-1" okOrch 2 3).2) :=
  ⟨rfl, Or.inl rfl, rfl, by decide, by decide,
   rerun_skip_noop _ _ okOrch 2 3 4 5 _ sampleAnalysis rfl (Or.inl rfl) rfl
     (by decide) (by decide)⟩

/-- C6: for a claim id absent from the store, the status lookup, the analyze
request and the results lookup each fail with the 404 not-found error; no
claim record is created or modified (the two lookups are read-only and the
analyze request hands the store back untouched). -/
theorem absent_claim_not_found (db : ClaimsDb) (claim_id : String)
    (orch : ClaimSubmission → String → Except String ClaimAnalysis)
    (t1 t2 : Nat) (h : dbGet db claim_id = none) :
    get_claim_status db claim_id = .error (notFoundError claim_id) ∧
    analyze_claim db claim_id orch t1 t2 = (.error (notFoundError claim_id), db) ∧
    get_analysis_results db claim_id = .error (notFoundError claim_id) ∧
    (notFoundError claim_id).code = 404 := by
  refine ⟨?_, ?_, ?_, rfl⟩ <;>
    simp [get_claim_status, analyze_claim, get_analysis_results, h]

/-- Witness for C6 on the empty store. -/
theorem absent_claim_not_found_witness :
    dbGet ([] : ClaimsDb) "CLM-MISSING" = none ∧
    (get_claim_status [] "CLM-MISSING" = .error (notFoundError "CLM-MISSING") ∧
     analyze_claim [] "CLM-MISSING" okOrch 1 2 =
       (.error (notFoundError "CLM-MISSING"), []) ∧
     get_analysis_results [] "CLM-MISSING" = .error (notFoundError "CLM-MISSING") ∧
     (notFoundError "CLM-MISSING").code = 404) :=
  ⟨rfl, absent_claim_not_found [] "CLM-MISSING" okOrch 1 2 rfl⟩

/-- C7: `ClaimSubmission` construction succeeds exactly when the claimed
amount is strictly positive and the description has at least 20 characters,
and `AgentResult` construction succeeds exactly when the confidence lies in
[0, 1]; any value outside these bounds is rejected at construction. -/
theorem construction_bounds (policy_number : String) (claim_type : ClaimType)
    (claim_amount : Rat)
    (incident_date description claimant_name claimant_email : String)
    (documents : List String) (agent_name astatus : String) (confidence : Rat)
    (findings : String) (recommendations : List String)
    (metadata : List (String × String)) :
    ((mkClaimSubmission policy_number claim_type claim_amount incident_date
        description claimant_name claimant_email documents).isSome ↔
      0 < claim_amount ∧ 20 ≤ description.length) ∧
    ((mkAgentResult agent_name astatus confidence findings recommendations
        metadata).isSome ↔
      0 ≤ confidence ∧ confidence ≤ 1) := by
  constructor
  · rw [mkClaimSubmission]
    split <;> simp_all
  · rw [mkAgentResult]
    split <;> simp_all

/-- C9: the results lookup on a stored claim that has no analysis yet returns
the informational "pending" response carrying the claim id, the current
status and the trigger-first message — it does not fail. -/
theorem results_pending_without_analysis (db : ClaimsDb) (claim_id : String)
    (cl : Claim) (h : dbGet db claim_id = some cl) (ha : cl.analysis = none) :
    get_analysis_results db claim_id =
      .ok (.pending claim_id cl.status
        "Analysis not yet completed. Please trigger analysis first.") := by
  simp [get_analysis_results, h, ha]

/-- Witness for C9 at a concrete submitted claim without analysis. -/
theorem results_pending_without_analysis_witness :
    dbGet [("CLM-1", sampleClaim .submitted)] "CLM-1" = some (sampleClaim .submitted) ∧
    (sampleClaim .submitted).analysis = none ∧
    get_analysis_results [("CLM-1", sampleClaim .submitted)] "CLM-1" =
      .ok (.pending "CLM-1" (sampleClaim .submitted).status
        "Analysis not yet completed. Please trigger analysis first.") :=
  ⟨rfl, rfl, results_pending_without_analysis _ _ _ rfl rfl⟩

theorem progress_tables_mismatch (st : ClaimStatus)
    (h1 : st ≠ .approved) (h2 : st ≠ .rejected) (h3 : st ≠ .needs_info) :
    (status_progress.lookup st).getD 0 ≠
      (if st = .approved ∨ st = .rejected then 100 else 50) := by
  cases st <;> first
    | exact absurd rfl h1
    | exact absurd rfl h2
    | exact absurd rfl h3
    | decide

/-- C10: the list endpoint reports progress 100 with step "Complete" exactly
for `approved`/`rejected` claims and 50 with "Processing" for every other
status; consequently, for a stored claim in a non-terminal status other than
`needs_info`, the single-claim lookup and the list endpoint report different
progress percentages for the same claim. -/
theorem list_progress_disagrees (db : ClaimsDb) (claim_id : String) (cl : Claim)
    (h : dbGet db claim_id = some cl) :
    listEntry cl ∈ list_claims db ∧
    ((listEntry cl).progress_percentage = 100 ∧
        (listEntry cl).current_step = "Complete" ↔
      cl.status = .approved ∨ cl.status = .rejected) ∧
    (cl.status ≠ .approved → cl.status ≠ .rejected →
      (listEntry cl).progress_percentage = 50 ∧
      (listEntry cl).current_step = "Processing") ∧
    (cl.status ≠ .approved → cl.status ≠ .rejected → cl.status ≠ .needs_info →
      ∀ resp, get_claim_status db claim_id = .ok resp →
        resp.progress_percentage ≠ (listEntry cl).progress_percentage) := by
  obtain ⟨cid2, sub, st, ca, ua, an⟩ := cl
  refine ⟨List.mem_map.mpr ⟨(claim_id, _), mem_of_dbGet db claim_id _ h, rfl⟩,
    ?_, ?_, ?_⟩
  · cases st <;> simp [listEntry]
  · intro h1 h2
    cases st <;> simp_all [listEntry]
  · intro h1 h2 h3 resp hresp
    simp [get_claim_status, h] at hresp
    subst hresp
    exact progress_tables_mismatch st h1 h2 h3

/-- Witness for C10 at a concrete submitted claim. -/
theorem list_progress_disagrees_witness :
    dbGet [("CLM-1", sampleClaim .submitted)] "CLM-1" = some (sampleClaim .submitted) ∧
    (listEntry (sampleClaim .submitted) ∈
        list_claims [("CLM-1", sampleClaim .submitted)] ∧
      ((listEntry (sampleClaim .submitted)).progress_percentage = 100 ∧
          (listEntry (sampleClaim .submitted)).current_step = "Complete" ↔
        (sampleClaim .submitted).status = .approved ∨
          (sampleClaim .submitted).status = .rejected) ∧
      ((sampleClaim .submitted).status ≠ .approved →
        (sampleClaim .submitted).status ≠ .rejected →
        (listEntry (sampleClaim .submitted)).progress_percentage = 50 ∧
        (listEntry (sampleClaim .submitted)).current_step = "Processing") ∧
      ((sampleClaim .submitted).status ≠ .approved →
        (sampleClaim .submitted).status ≠ .rejected →
        (sampleClaim .submitted).status ≠ .needs_info →
        ∀ resp, get_claim_status [("CLM-1", sampleClaim .submitted)] "CLM-1" = .ok resp →
          resp.progress_percentage ≠
            (listEntry (sampleClaim .submitted)).progress_percentage)) :=
  ⟨rfl, list_progress_disagrees _ _ _ rfl⟩

/-- C3 counterexample: an analyze request on a claim stored as `needs_info`
whose orchestrator call raises leaves the claim stored as `submitted`; the
§4.2 table has no edge into `submitted` at all, so this status change (and in
particular the handler's intermediate `validating → submitted` reset) moves
along no defined edge. -/
theorem analyze_offtable_transition :
    (sampleClaim .needs_info).status = .needs_info ∧
    (dbGet (analyze_claim [("CLM-1", sampleClaim .needs_info)] "CLM-1"
        failOrch 4 5).2 "CLM-1").map Claim.status = some .submitted ∧
    specEdgeB .needs_info .submitted = false ∧
    specEdgeB .validating .submitted = false ∧
    (∀ st : ClaimStatus, specEdgeB st .submitted = false) :=
  ⟨rfl, rfl, rfl, rfl, by intro st; cases st <;> rfl⟩

/-- C3 amended: in the interleaved execution model, the analyze edge
`submitted | needs_info → validating` is the only status write that follows
the §4.2 table edge-by-edge; the two writes performed after the orchestrator
returns leave the table: on success the status jumps from `validating`
directly to the analysis's `overall_status`, and in the exception handler it
is reset from `validating` to `submitted` (an edge the table does not
define). -/
theorem status_change_characterization (s s' : Sys) (l : Label)
    (hInv : Inv s) (hstep : SysStep s l s') (c : String) (cl cl' : Claim)
    (hc : dbGet s.db c = some cl) (hc' : dbGet s'.db c = some cl')
    (hne : cl'.status ≠ cl.status) :
    (specEdgeB cl.status cl'.status = true ∧ cl'.status = .validating) ∨
    (cl.status = .validating ∧
      ((∃ a t, l = .fire2ok c a t ∧ cl'.status = a.overall_status) ∨
       (∃ e t, l = .fire2err c e t ∧ cl'.status = .submitted))) := by
  obtain ⟨hnd, hval⟩ := hInv
  cases hstep with
  | step1_notfound db pre post cid t hget =>
    rw [hc'] at hc
    injection hc with hcc
    exact absurd (congrArg Claim.status hcc) hne
  | step1_skip db pre post cid t cl0 hget hst =>
    rw [hc'] at hc
    injection hc with hcc
    exact absurd (congrArg Claim.status hcc) hne
  | step1_proceed db pre post cid t cl0 hget hst =>
    by_cases hcc : c = cid
    · subst hcc
      rw [hget] at hc
      injection hc with hc
      subst hc
      rw [dbGet_dbUpdate_self, hget] at hc'
      injection hc' with hc'
      subst hc'
      rcases hst with hst | hst <;> rw [hst] <;> exact Or.inl ⟨rfl, rfl⟩
    · rw [dbGet_dbUpdate_ne _ _ _ _ hcc, hc] at hc'
      injection hc' with hcc2
      exact absurd (congrArg Claim.status hcc2.symm) hne
  | step2_ok db pre post cid a t =>
    by_cases hcc : c = cid
    · subst hcc
      have hmem : c ∈ awaitingIds (pre ++ { claim_id := c, phase := .awaiting } :: post) := by
        rw [awaitingIds_append, awaitingIds_cons]
        simp
      obtain ⟨cl2, hcl2, hv2⟩ := hval c hmem
      rw [hc] at hcl2
      injection hcl2 with hcl2
      subst hcl2
      rw [dbGet_dbUpdate_self, hc] at hc'
      injection hc' with hc'
      subst hc'
      exact Or.inr ⟨hv2.symm ▸ rfl, Or.inl ⟨a, t, rfl, rfl⟩⟩
    · rw [dbGet_dbUpdate_ne _ _ _ _ hcc, hc] at hc'
      injection hc' with hcc2
      exact absurd (congrArg Claim.status hcc2.symm) hne
  | step2_err db pre post cid e t =>
    by_cases hcc : c = cid
    · subst hcc
      have hmem : c ∈ awaitingIds (pre ++ { claim_id := c, phase := .awaiting } :: post) := by
        rw [awaitingIds_append, awaitingIds_cons]
        simp
      obtain ⟨cl2, hcl2, hv2⟩ := hval c hmem
      rw [hc] at hcl2
      injection hcl2 with hcl2
      subst hcl2
      rw [dbGet_dbUpdate_self, hc] at hc'
      injection hc' with hc'
      subst hc'
      exact Or.inr ⟨hv2.symm ▸ rfl, Or.inr ⟨e, t, rfl, rfl⟩⟩
    · rw [dbGet_dbUpdate_ne _ _ _ _ hcc, hc] at hc'
      injection hc' with hcc2
      exact absurd (congrArg Claim.status hcc2.symm) hne

/-- Witness for C3 amended: the scheduler runs segment 1 of a single request
on a freshly submitted claim, performing the table's
`submitted → validating` analyze edge. -/
theorem status_change_characterization_witness :
    Inv ⟨[("CLM-1", sampleClaim .submitted)], [⟨"CLM-1", .start⟩]⟩ ∧
    SysStep ⟨[("CLM-1", sampleClaim .submitted)], [⟨"CLM-1", .start⟩]⟩
      (.fire1 "CLM-1" 3)
      ⟨[("CLM-1", { (sampleClaim .submitted) with
                    status := .validating, updated_at := 3 })],
       [⟨"CLM-1", .awaiting⟩]⟩ ∧
    dbGet [("CLM-1", sampleClaim .submitted)] "CLM-1" =
      some (sampleClaim .submitted) ∧
    dbGet [("CLM-1", { (sampleClaim .submitted) with
                       status := .validating, updated_at := 3 })] "CLM-1" =
      some { (sampleClaim .submitted) with status := .validating, updated_at := 3 } ∧
    ({ (sampleClaim .submitted) with
       status := .validating, updated_at := 3 } : Claim).status ≠
      (sampleClaim .submitted).status ∧
    ((specEdgeB (sampleClaim .submitted).status
          ({ (sampleClaim .submitted) with
             status := .validating, updated_at := 3 } : Claim).status = true ∧
        ({ (sampleClaim .submitted) with
           status := .validating, updated_at := 3 } : Claim).status = .validating) ∨
      ((sampleClaim .submitted).status = .validating ∧
        ((∃ a t, Label.fire1 "CLM-1" 3 = .fire2ok "CLM-1" a t ∧
            ({ (sampleClaim .submitted) with
               status := .validating, updated_at := 3 } : Claim).status =
              a.overall_status) ∨
         (∃ e t, Label.fire1 "CLM-1" 3 = .fire2err "CLM-1" e t ∧
            ({ (sampleClaim .submitted) with
               status := .validating, updated_at := 3 } : Claim).status =
              .submitted)))) := by
  have hInv : Inv ⟨[("CLM-1", sampleClaim .submitted)], [⟨"CLM-1", .start⟩]⟩ := by
    constructor
    · decide
    · intro c hc
      simp [awaitingIds] at hc
  have hstep : SysStep ⟨[("CLM-1", sampleClaim .submitted)], [⟨"CLM-1", .start⟩]⟩
      (.fire1 "CLM-1" 3)
      ⟨[("CLM-1", { (sampleClaim .submitted) with
                    status := .validating, updated_at := 3 })],
       [⟨"CLM-1", .awaiting⟩]⟩ :=
    SysStep.step1_proceed _ [] [] "CLM-1" 3 _ rfl (Or.inl rfl)
  exact ⟨hInv, hstep, rfl, rfl, by decide,
    status_change_characterization _ _ _ hInv hstep "CLM-1" _ _ rfl rfl (by decide)⟩

/-- C8: in the interleaved execution model, every scheduler step preserves the
invariant that at most one pipeline run is active per claim id (the ids of
suspended requests are pairwise distinct, and each names a claim stored as
`validating`); moreover, a request whose first segment runs on a claim that
already has an active run finishes immediately with the "skipped" response
and leaves the store untouched. -/
theorem analyze_per_claim_exclusion (s s' : Sys) (l : Label)
    (hInv : Inv s) (hstep : SysStep s l s') :
    Inv s' ∧
    (∀ cid t, l = .fire1 cid t → cid ∈ awaitingIds s.calls →
      s'.db = s.db ∧
      ∃ pre post, s.calls = pre ++ { claim_id := cid, phase := .start } :: post ∧
        s'.calls = pre ++ { claim_id := cid,
                            phase := .done (.ok (skipResponse cid)) } :: post) := by
  obtain ⟨hnd, hval⟩ := hInv
  cases hstep with
  | step1_notfound db pre post cid t hget =>
    refine ⟨⟨?_, ?_⟩, ?_⟩
    · simpa [awaitingIds_append, awaitingIds_cons] using hnd
    · intro c hc
      apply hval
      rw [awaitingIds_append, awaitingIds_cons] at hc ⊢
      simpa using hc
    · intro cid2 t2 heq hmem
      injection heq with h1 h2
      subst h1
      obtain ⟨cl2, hcl2, _⟩ := hval _ hmem
      rw [hget] at hcl2
      cases hcl2
  | step1_skip db pre post cid t cl0 hget hst =>
    refine ⟨⟨?_, ?_⟩, ?_⟩
    · simpa [awaitingIds_append, awaitingIds_cons] using hnd
    · intro c hc
      apply hval
      rw [awaitingIds_append, awaitingIds_cons] at hc ⊢
      simpa using hc
    · intro cid2 t2 heq hmem
      injection heq with h1 h2
      subst h1
      exact ⟨rfl, pre, post, rfl, rfl⟩
  | step1_proceed db pre post cid t cl0 hget hst =>
    have hnotmem : cid ∉ awaitingIds (pre ++ { claim_id := cid, phase := .start } :: post) := by
      intro hmem
      obtain ⟨cl2, hcl2, hv2⟩ := hval cid hmem
      rw [hget] at hcl2
      injection hcl2 with hcl2
      subst hcl2
      rcases hst with hst | hst <;> rw [hst] at hv2 <;> cases hv2
    have hother : awaitingIds (pre ++ { claim_id := cid, phase := .start } :: post) =
        awaitingIds pre ++ awaitingIds post := by
      rw [awaitingIds_append, awaitingIds_cons]
      simp
    refine ⟨⟨?_, ?_⟩, ?_⟩
    · rw [awaitingIds_append, awaitingIds_cons]
      simp only [isAwaiting_awaiting, if_true]
      rw [List.nodup_middle]
      refine List.nodup_cons.mpr ⟨?_, ?_⟩
      · rw [← hother]
        exact hnotmem
      · rw [← hother]
        exact hnd
    · intro c hc
      rw [awaitingIds_append, awaitingIds_cons] at hc
      simp only [isAwaiting_awaiting, if_true] at hc
      by_cases hcc : c = cid
      · subst hcc
        have hg : dbGet (dbUpdate db c
              (fun k => { k with status := .validating, updated_at := t })) c =
            some { cl0 with status := .validating, updated_at := t } := by
          rw [dbGet_dbUpdate_self, hget]
          rfl
        exact ⟨_, hg, rfl⟩
      · have hcold : c ∈ awaitingIds (pre ++ { claim_id := cid, phase := .start } :: post) := by
          rw [hother]
          rcases List.mem_append.mp hc with hc | hc
          · exact List.mem_append_left _ hc
          · rcases List.mem_cons.mp hc with hc | hc
            · exact absurd hc hcc
            · exact List.mem_append_right _ hc
        obtain ⟨cl2, hcl2, hv2⟩ := hval c hcold
        exact ⟨cl2, by rw [dbGet_dbUpdate_ne _ _ _ _ hcc]; exact hcl2, hv2⟩
    · intro cid2 t2 heq hmem
      injection heq with h1 h2
      subst h1
      exact absurd hmem hnotmem
  | step2_ok db pre post cid a t =>
    have hids : awaitingIds (pre ++ { claim_id := cid, phase := .awaiting } :: post) =
        awaitingIds pre ++ cid :: awaitingIds post := by
      rw [awaitingIds_append, awaitingIds_cons]
      simp
    have hnd2 : cid ∉ awaitingIds pre ++ awaitingIds post ∧
        (awaitingIds pre ++ awaitingIds post).Nodup := by
      have := hnd
      rw [hids, List.nodup_middle] at this
      exact List.nodup_cons.mp this
    refine ⟨⟨?_, ?_⟩, ?_⟩
    · rw [awaitingIds_append, awaitingIds_cons]
      simpa using hnd2.2
    · intro c hc
      rw [awaitingIds_append, awaitingIds_cons] at hc
      simp only [isAwaiting_done, if_false] at hc
      have hcne : c ≠ cid := by
        intro hcc
        subst hcc
        exact hnd2.1 hc
      have hcold : c ∈ awaitingIds (pre ++ { claim_id := cid, phase := .awaiting } :: post) := by
        rw [hids]
        rcases List.mem_append.mp hc with hc | hc
        · exact List.mem_append_left _ hc
        · exact List.mem_append_right _ (List.mem_cons_of_mem _ hc)
      obtain ⟨cl2, hcl2, hv2⟩ := hval c hcold
      exact ⟨cl2, by rw [dbGet_dbUpdate_ne _ _ _ _ hcne]; exact hcl2, hv2⟩
    · intro cid2 t2 heq hmem
      exact Label.noConfusion heq
  | step2_err db pre post cid e t =>
    have hids : awaitingIds (pre ++ { claim_id := cid, phase := .awaiting } :: post) =
        awaitingIds pre ++ cid :: awaitingIds post := by
      rw [awaitingIds_append, awaitingIds_cons]
      simp
    have hnd2 : cid ∉ awaitingIds pre ++ awaitingIds post ∧
        (awaitingIds pre ++ awaitingIds post).Nodup := by
      have := hnd
      rw [hids, List.nodup_middle] at this
      exact List.nodup_cons.mp this
    refine ⟨⟨?_, ?_⟩, ?_⟩
    · rw [awaitingIds_append, awaitingIds_cons]
      simpa using hnd2.2
    · intro c hc
      rw [awaitingIds_append, awaitingIds_cons] at hc
      simp only [isAwaiting_done, if_false] at hc
      have hcne : c ≠ cid := by
        intro hcc
        subst hcc
        exact hnd2.1 hc
      have hcold : c ∈ awaitingIds (pre ++ { claim_id := cid, phase := .awaiting } :: post) := by
        rw [hids]
        rcases List.mem_append.mp hc with hc | hc
        · exact List.mem_append_left _ hc
        · exact List.mem_append_right _ (List.mem_cons_of_mem _ hc)
      obtain ⟨cl2, hcl2, hv2⟩ := hval c hcold
      exact ⟨cl2, by rw [dbGet_dbUpdate_ne _ _ _ _ hcne]; exact hcl2, hv2⟩
    · intro cid2 t2 heq hmem
      exact Label.noConfusion heq

/-- Witness for C8: a second request fires its first segment while another
request's run is active on the same claim; it is skipped and the store is
untouched. -/
theorem analyze_per_claim_exclusion_witness :
    Inv ⟨[("CLM-1", sampleClaim .validating)],
         [⟨"CLM-1", .awaiting⟩, ⟨"CLM-1", .start⟩]⟩ ∧
    SysStep ⟨[("CLM-1", sampleClaim .validating)],
             [⟨"CLM-1", .awaiting⟩, ⟨"CLM-1", .start⟩]⟩
      (.fire1 "CLM-1" 7)
      ⟨[("CLM-1", sampleClaim .validating)],
       [⟨"CLM-1", .awaiting⟩,
        ⟨"CLM-1", .done (.ok (skipResponse "CLM-1"))⟩]⟩ ∧
    "CLM-1" ∈ awaitingIds [⟨"CLM-1", .awaiting⟩, ⟨"CLM-1", .start⟩] ∧
    (Inv ⟨[("CLM-1", sampleClaim .validating)],
          [⟨"CLM-1", .awaiting⟩,
           ⟨"CLM-1", .done (.ok (skipResponse "CLM-1"))⟩]⟩ ∧
     (∀ cid t, Label.fire1 "CLM-1" 7 = .fire1 cid t →
        cid ∈ awaitingIds (Sys.mk [("CLM-1", sampleClaim .validating)]
            [⟨"CLM-1", .awaiting⟩, ⟨"CLM-1", .start⟩]).calls →
        (Sys.mk [("CLM-1", sampleClaim .validating)]
            [⟨"CLM-1", .awaiting⟩,
             ⟨"CLM-1", .done (.ok (skipResponse "CLM-1"))⟩]).db =
          (Sys.mk [("CLM-1", sampleClaim .validating)]
            [⟨"CLM-1", .awaiting⟩, ⟨"CLM-1", .start⟩]).db ∧
        ∃ pre post,
          (Sys.mk [("CLM-1", sampleClaim .validating)]
              [⟨"CLM-1", .awaiting⟩, ⟨"CLM-1", .start⟩]).calls =
            pre ++ { claim_id := cid, phase := .start } :: post ∧
          (Sys.mk [("CLM-1", sampleClaim .validating)]
              [⟨"CLM-1", .awaiting⟩,
               ⟨"CLM-1", .done (.ok (skipResponse "CLM-1"))⟩]).calls =
            pre ++ { claim_id := cid,
                     phase := .done (.ok (skipResponse cid)) } :: post)) := by
  have hInv : Inv ⟨[("CLM-1", sampleClaim .validating)],
      [⟨"CLM-1", .awaiting⟩, ⟨"CLM-1", .start⟩]⟩ := by
    constructor
    · decide
    · intro c hc
      simp [awaitingIds] at hc
      subst hc
      exact ⟨sampleClaim .validating, rfl, rfl⟩
  have hstep : SysStep ⟨[("CLM-1", sampleClaim .validating)],
      [⟨"CLM-1", .awaiting⟩, ⟨"CLM-1", .start⟩]⟩
      (.fire1 "CLM-1" 7)
      ⟨[("CLM-1", sampleClaim .validating)],
       [⟨"CLM-1", .awaiting⟩,
        ⟨"CLM-1", .done (.ok (skipResponse "CLM-1"))⟩]⟩ :=
    SysStep.step1_skip _ [⟨"CLM-1", .awaiting⟩] [] "CLM-1" 7
      (sampleClaim .validating) rfl (by decide)
  exact ⟨hInv, hstep, by decide,
    analyze_per_claim_exclusion _ _ _ hInv hstep⟩

end ClaimsOrchestration
